import Mathlib

/-!
Verification of the two-coil spring-nest solver (`CoilSpringDesign.py`).

The numeric type is ℚ: the Python program computes with IEEE float64, and
every claim under study is about the exact algebraic structure of the
computation (which formula each residual component is, which branch of the
free-length tie-break is taken, how the carried loads are assembled), not
about rounding.  Rational arithmetic keeps every definition executable and
every witness checkable by `decide` or `rfl`.

The `helicoil` physics library is an external collaborator: its scalar
functions (`solid_length`, `Sa_min_reserve_length`, `axial_rate`,
`axial_stress_static`, `buckling_deflection`, and the material's
`solid_stress_limit`) are opaque pure functions of their arguments.  They
are modelled as fields of a `Helicoil` bundle (resp. `Material`), so every
theorem quantifies over all possible physics functions, and witnesses
instantiate a concrete bundle.
-/

namespace SpringDesign

/-- A 7-vector of rationals, the `np.array` of the 7 unknowns
[OD, do, No, L0o, di, Ni, L0i] and likewise the 7-vector of residuals. -/
structure Vec7 where
  v0 : ℚ
  v1 : ℚ
  v2 : ℚ
  v3 : ℚ
  v4 : ℚ
  v5 : ℚ
  v6 : ℚ
deriving DecidableEq, Repr

/-- The zero 7-vector (`np.zeros(7)`). -/
def Vec7.zero : Vec7 := ⟨0, 0, 0, 0, 0, 0, 0⟩

/-- Material descriptor (external, e.g. `hc.prEN10089`): shear modulus `G`,
elastic modulus `E`, and a stress-limit function of wire diameter. -/
structure Material where
  G : ℚ
  E : ℚ
  solid_stress_limit : ℚ → ℚ

/-- The abstract physics functions of the `helicoil` library, with the
argument orders used at the call sites in `CoilSpringDesign.py`. -/
structure Helicoil where
  solid_length : ℚ → ℚ → ℚ
  Sa_min_reserve_length : ℚ → ℚ → ℚ → ℚ
  axial_rate : ℚ → ℚ → ℚ → ℚ → ℚ
  axial_stress_static : ℚ → ℚ → ℚ → ℚ
  buckling_deflection : ℚ → ℚ → ℚ → ℚ → ℚ → ℚ

/-- Modelled from the spec: `hc.coil_data` (the physics library's
`buildCoilRecord`) is not under `src/`; per spec section 3 and section 6 it packages
"label, wire diameter, mean coil diameter, active coil count, carried load
at design length, design length, minimum service length, low/high cycle
deflection amplitudes, material reference" into a read-only record. -/
structure CoilRecord where
  label : String
  d : ℚ
  D : ℚ
  N : ℚ
  F : ℚ
  L : ℚ
  L_min : ℚ
  lo_amp : ℚ
  hi_amp : ℚ
  mat : Material

/-- Modelled from the spec: the record constructor
`buildCoilRecord(label, wireDiameter, meanDiameter, coilCount, force,
designLength, minLength, loAmplitude, hiAmplitude, material) -> CoilRecord`;
it stores its arguments, deriving nothing the claims depend on. -/
def Helicoil.coil_data (_hcl : Helicoil) (label : String)
    (d D N F L L_min lo_amp hi_amp : ℚ) (mat : Material) : CoilRecord :=
  ⟨label, d, D, N, F, L, L_min, lo_amp, hi_amp, mat⟩

/-- The label passed to the outer coil's record constructor at line 138. -/
def outer_label : String := "Outer Coil"

/-- The label passed to the inner coil's record constructor at line 141. -/
def inner_label : String := "Inner Coil"

/-- The result object of `scipy.optimize.root`: a success flag plus raw
diagnostic state (last iterate `x`, residual there `fvec`, evaluation
count, message).  The solver itself is an external library; `get_solution`
is parametric in the result it hands back. -/
structure RootResult where
  success : Bool
  x : Vec7
  fvec : Vec7
  nfev : Nat
  message : String

/-- The heterogeneous slots of the triple returned by `get_solution`:
Python returns `(False, sol, None)` on failure and
`(True, OC_data, IC_data)` on success, reusing the slots for a solver
diagnostic, a coil record, or `None`. -/
inductive Slot where
  | nil : Slot
  | diag : RootResult → Slot
  | coil : CoilRecord → Slot

/-- Configuration of `TwoCoilSetLength.__init__` (lines 15-33): every
constructor argument is stored verbatim on the instance; there is no
validation. -/
structure TwoCoilSetLength where
  mat : Material
  end_con : ℚ
  R : ℚ
  F : ℚ
  L : ℚ
  coil_gap : ℚ
  max_comp : ℚ
  lo_cycle_amp : ℚ
  hi_cycle_amp : ℚ
  comp_res : ℚ
  solid_str_res : ℚ
  x0 : Vec7

/-- `TwoCoilSetLength.__init__` with the source's parameter order
(material, axial_rate, design_load, design_length, radial_coil_gap,
max_compression, lo/hi cycle amplitudes, end_condition,
compression_defln_reserve, solid_stress_reserve, estimated_solution):
it only assigns fields, performing no checks. -/
def TwoCoilSetLength.init (material : Material)
    (axial_rate design_load design_length radial_coil_gap max_compression
     lo_cycle_defln_amplitude hi_cycle_defln_amplitude end_condition
     compression_defln_reserve solid_stress_reserve : ℚ)
    (estimated_solution : Vec7) : TwoCoilSetLength :=
  { mat := material
    end_con := end_condition
    R := axial_rate
    F := design_load
    L := design_length
    coil_gap := radial_coil_gap
    max_comp := max_compression
    lo_cycle_amp := lo_cycle_defln_amplitude
    hi_cycle_amp := hi_cycle_defln_amplitude
    comp_res := compression_defln_reserve
    solid_str_res := solid_stress_reserve
    x0 := estimated_solution }

/-- Lines 57-58 of `error`: `Do = OD - do; Di = Do - do - 2*coil_gap - di`. -/
def error_mean_diameters (coil_gap OD d_o di : ℚ) : ℚ × ℚ :=
  let Do := OD - d_o
  let Di := Do - d_o - 2*coil_gap - di
  (Do, Di)

/-- Lines 118-119 of `get_solution`: the same two assignments, written a
second time in the source. -/
def solution_mean_diameters (coil_gap OD d_o di : ℚ) : ℚ × ℚ :=
  let Do := OD - d_o
  let Di := Do - d_o - 2*coil_gap - di
  (Do, Di)

/-- Lines 72-79 of `error`: the free-length-imbalance tie-break, yielding
`(Fo1, Fi1, L1)`. -/
def error_preload (Ro Ri L0o L0i : ℚ) : ℚ × ℚ × ℚ :=
  if L0o > L0i then
    (Ro*(L0o - L0i), 0, L0i)
  else
    (0, Ri*(L0i - L0o), L0o)

/-- Lines 124-131 of `get_solution`: the same tie-break, duplicated in the
source. -/
def solution_preload (Ro Ri L0o L0i : ℚ) : ℚ × ℚ × ℚ :=
  if L0o > L0i then
    (Ro*(L0o - L0i), 0, L0i)
  else
    (0, Ri*(L0i - L0o), L0o)

/-- `TwoCoilSetLength.error` (lines 36-105): the 7-vector of residuals of
the target solution, translated statement by statement from the source. -/
def TwoCoilSetLength.error (self : TwoCoilSetLength) (hcl : Helicoil)
    (x : Vec7) : Vec7 :=
  let OD := x.v0
  let d_o := x.v1
  let No := x.v2
  let L0o := x.v3
  let di := x.v4
  let Ni := x.v5
  let L0i := x.v6
  let min_service_len := self.L - self.max_comp
  let min_length := min_service_len - self.comp_res
  let diam := error_mean_diameters self.coil_gap OD d_o di
  let Do := diam.1
  let Di := diam.2
  let Lco := hcl.solid_length No d_o
  let Lci := hcl.solid_length Ni di
  let Sao := hcl.Sa_min_reserve_length Do d_o No
  let Sai := hcl.Sa_min_reserve_length Di di Ni
  let minLength_o := Lco + Sao
  let minLength_i := Lci + Sai
  let Ro := hcl.axial_rate self.mat.G d_o Do No
  let Ri := hcl.axial_rate self.mat.G di Di Ni
  let pre := error_preload Ro Ri L0o L0i
  let Fo1 := pre.1
  let Fi1 := pre.2.1
  let L1 := pre.2.2
  let F2 := self.F - Fo1 - Fi1
  let L_at_F := L1 - F2/(Ro + Ri)
  let solidStr_o := hcl.axial_stress_static Do d_o (Ro*(L0o - Lco))
  let solidStr_i := hcl.axial_stress_static Di di (Ri*(L0i - Lci))
  let solidStrRes_o := self.mat.solid_stress_limit d_o - solidStr_o
  let solidStrRes_i := self.mat.solid_stress_limit di - solidStr_i
  let buck_defln := hcl.buckling_deflection self.mat.G self.mat.E Di L0i self.end_con
  let buckling_len := L0i - buck_defln
  { v0 := Ro + Ri - self.R
    v1 := minLength_o - min_length
    v2 := minLength_i - min_length
    v3 := L_at_F - self.L
    v4 := solidStrRes_o - self.solid_str_res
    v5 := solidStrRes_i - self.solid_str_res
    v6 := buckling_len - min_service_len }

/-- The division at line 82 as the program performs it.  The iterate
components are numpy float64 scalars, and numpy float64 division does not
raise: a zero denominator produces inf or nan together with a
RuntimeWarning, never an exception, so the operation always yields a
value.  In the rational model that value at a zero denominator is the
convention q/0 = 0, standing in for the non-signalling IEEE result. -/
def npDiv (a b : ℚ) : Option ℚ := some (a / b)

/-- `TwoCoilSetLength.error` re-structured in the Option monad, with the
one fallible-looking site of its body -- the division `F2/(Ro + Ri)` at
line 82 -- factored through `npDiv`, so that the absence of domain errors
is a provable statement about the computation rather than a typing
accident. -/
def TwoCoilSetLength.error_checked (self : TwoCoilSetLength) (hcl : Helicoil)
    (x : Vec7) : Option Vec7 := do
  let OD := x.v0
  let d_o := x.v1
  let No := x.v2
  let L0o := x.v3
  let di := x.v4
  let Ni := x.v5
  let L0i := x.v6
  let min_service_len := self.L - self.max_comp
  let min_length := min_service_len - self.comp_res
  let diam := error_mean_diameters self.coil_gap OD d_o di
  let Do := diam.1
  let Di := diam.2
  let Lco := hcl.solid_length No d_o
  let Lci := hcl.solid_length Ni di
  let Sao := hcl.Sa_min_reserve_length Do d_o No
  let Sai := hcl.Sa_min_reserve_length Di di Ni
  let minLength_o := Lco + Sao
  let minLength_i := Lci + Sai
  let Ro := hcl.axial_rate self.mat.G d_o Do No
  let Ri := hcl.axial_rate self.mat.G di Di Ni
  let pre := error_preload Ro Ri L0o L0i
  let Fo1 := pre.1
  let Fi1 := pre.2.1
  let L1 := pre.2.2
  let F2 := self.F - Fo1 - Fi1
  let q ← npDiv F2 (Ro + Ri)
  let L_at_F := L1 - q
  let solidStr_o := hcl.axial_stress_static Do d_o (Ro*(L0o - Lco))
  let solidStr_i := hcl.axial_stress_static Di di (Ri*(L0i - Lci))
  let solidStrRes_o := self.mat.solid_stress_limit d_o - solidStr_o
  let solidStrRes_i := self.mat.solid_stress_limit di - solidStr_i
  let buck_defln := hcl.buckling_deflection self.mat.G self.mat.E Di L0i self.end_con
  let buckling_len := L0i - buck_defln
  pure { v0 := Ro + Ri - self.R
         v1 := minLength_o - min_length
         v2 := minLength_i - min_length
         v3 := L_at_F - self.L
         v4 := solidStrRes_o - self.solid_str_res
         v5 := solidStrRes_i - self.solid_str_res
         v6 := buckling_len - min_service_len }

/-- `TwoCoilSetLength.get_solution` (lines 108-144), parametric in the
result the external root finder returns for `(self.error, self.x0)`.
On `not sol.success` it returns `(False, sol, None)`; otherwise it
recomputes the geometry, rates and tie-break from `sol.x` and builds the
two coil records. -/
def TwoCoilSetLength.get_solution (self : TwoCoilSetLength) (hcl : Helicoil)
    (sol : RootResult) : Bool × Slot × Slot :=
  if sol.success = false then
    (false, Slot.diag sol, Slot.nil)
  else
    let OD := sol.x.v0
    let d_o := sol.x.v1
    let No := sol.x.v2
    let L0o := sol.x.v3
    let di := sol.x.v4
    let Ni := sol.x.v5
    let L0i := sol.x.v6
    let diam := solution_mean_diameters self.coil_gap OD d_o di
    let Do := diam.1
    let Di := diam.2
    let Ro := hcl.axial_rate self.mat.G d_o Do No
    let Ri := hcl.axial_rate self.mat.G di Di Ni
    let pre := solution_preload Ro Ri L0o L0i
    let Fo1 := pre.1
    let Fi1 := pre.2.1
    let L1 := pre.2.2
    let Fo := Fo1 + Ro*(L1 - self.L)
    let Fi := Fi1 + Ri*(L1 - self.L)
    let L_min := self.L - self.max_comp
    let OC_data := hcl.coil_data outer_label d_o Do No Fo self.L L_min
                     self.lo_cycle_amp self.hi_cycle_amp self.mat
    let IC_data := hcl.coil_data inner_label di Di Ni Fi self.L L_min
                     self.lo_cycle_amp self.hi_cycle_amp self.mat
    (true, Slot.coil OC_data, Slot.coil IC_data)

/-! ### Concrete instances for witnesses

A concrete material, physics bundle, configuration and solver results,
used only to instantiate the quantified theorems at checkable inputs. -/

/-- A concrete material: arbitrary moduli, affine stress limit. -/
def mat0 : Material :=
  { G := 80, E := 200, solid_stress_limit := fun d => 70 + d }

/-- A concrete physics bundle with simple total formulas. -/
def hc0 : Helicoil :=
  { solid_length := fun N d => N * d
    Sa_min_reserve_length := fun D d N => D + d + N
    axial_rate := fun G d D N => G + d + D + N
    axial_stress_static := fun D d F => D + d + F
    buckling_deflection := fun G E D L0 nu => G + E + D + L0 + nu }

/-- The initial-guess vector of the source's demo configuration. -/
def x0demo : Vec7 := ⟨200, 30, 8, 500, 20, 11, 500⟩

/-- The source's demo configuration (lines 151-164), with `mat0` for the
external material. -/
def cfg0 : TwoCoilSetLength :=
  TwoCoilSetLength.init mat0 280 34760 (3678/10) 8 45 35 25 (7/10) 20 70 x0demo

/-- A successful solver result. -/
def solOK : RootResult :=
  { success := true, x := x0demo, fvec := Vec7.zero, nfev := 17
    message := "The solution converged." }

/-- A failed solver result carrying diagnostic state. -/
def solFail : RootResult :=
  { success := false, x := x0demo, fvec := ⟨1, 1, 1, 1, 1, 1, 1⟩, nfev := 800
    message := "The iteration is not making good progress." }

/-! ### Claims -/

/-- Claim C1: for every 7-vector x = [OD, do, No, L0o, di, Ni, L0i] and
fixed configuration, `error x` returns the 7-vector whose components are:
(1) Ro + Ri minus the target combined rate; (2) outer solid length plus
outer minimum-reserve length, minus the target minimum length
(design length - max compression - compression-length reserve); (3) the
same for the inner coil; (4) L_at_F minus the design length, with
L_at_F = L1 - F2/(Ro + Ri) and F2 = design load - outer preload - inner
preload; (5) outer solid-stress reserve (stress limit at do minus static
stress at force Ro*(L0o - outer solid length)) minus the required reserve;
(6) the same for the inner coil; (7) (L0i - buckling deflection limit)
minus the minimum service length (design length - max compression). -/
theorem claim_C1_residual_components (cfg : TwoCoilSetLength) (hcl : Helicoil)
    (x : Vec7) :
    let OD := x.v0
    let d_o := x.v1
    let No := x.v2
    let L0o := x.v3
    let di := x.v4
    let Ni := x.v5
    let L0i := x.v6
    let Do := OD - d_o
    let Di := Do - d_o - 2*cfg.coil_gap - di
    let Ro := hcl.axial_rate cfg.mat.G d_o Do No
    let Ri := hcl.axial_rate cfg.mat.G di Di Ni
    let pre := error_preload Ro Ri L0o L0i
    let F2 := cfg.F - pre.1 - pre.2.1
    let L_at_F := pre.2.2 - F2/(Ro + Ri)
    let target_min_length := (cfg.L - cfg.max_comp) - cfg.comp_res
    (cfg.error hcl x).v0 = Ro + Ri - cfg.R ∧
    (cfg.error hcl x).v1 =
      (hcl.solid_length No d_o + hcl.Sa_min_reserve_length Do d_o No)
        - target_min_length ∧
    (cfg.error hcl x).v2 =
      (hcl.solid_length Ni di + hcl.Sa_min_reserve_length Di di Ni)
        - target_min_length ∧
    (cfg.error hcl x).v3 = L_at_F - cfg.L ∧
    (cfg.error hcl x).v4 =
      (cfg.mat.solid_stress_limit d_o
        - hcl.axial_stress_static Do d_o (Ro*(L0o - hcl.solid_length No d_o)))
        - cfg.solid_str_res ∧
    (cfg.error hcl x).v5 =
      (cfg.mat.solid_stress_limit di
        - hcl.axial_stress_static Di di (Ri*(L0i - hcl.solid_length Ni di)))
        - cfg.solid_str_res ∧
    (cfg.error hcl x).v6 =
      (L0i - hcl.buckling_deflection cfg.mat.G cfg.mat.E Di L0i cfg.end_con)
        - (cfg.L - cfg.max_comp) :=
  ⟨rfl, rfl, rfl, rfl, rfl, rfl, rfl⟩

/-- Claim C2: in the residual function the tie-break is on the strict
comparison L0o > L0i: if it holds, Fo1 = Ro*(L0o - L0i), Fi1 = 0 and
L1 = L0i; otherwise (including exact equality) Fo1 = 0,
Fi1 = Ri*(L0i - L0o) and L1 = L0o, so equal free lengths deterministically
take the else branch with zero preload on both coils. -/
theorem claim_C2_tie_break (Ro Ri L0o L0i : ℚ) :
    (L0o > L0i → error_preload Ro Ri L0o L0i = (Ro*(L0o - L0i), 0, L0i)) ∧
    (¬ L0o > L0i → error_preload Ro Ri L0o L0i = (0, Ri*(L0i - L0o), L0o)) ∧
    (L0o = L0i → error_preload Ro Ri L0o L0i = (0, 0, L0o)) := by
  refine ⟨fun h => ?_, fun h => ?_, fun h => ?_⟩
  · simp [error_preload, h]
  · simp [error_preload, h]
  · subst h
    simp [error_preload]

/-- Witness for C2 at concrete inputs: one strictly greater outer free
length, one exactly equal pair. -/
theorem claim_C2_tie_break_witness :
    error_preload 2 3 5 4 = (2*(5 - 4), 0, 4) ∧
    error_preload 2 3 4 4 = (0, 0, 4) :=
  ⟨(claim_C2_tie_break 2 3 5 4).1 (by norm_num),
   (claim_C2_tie_break 2 3 4 4).2.2 rfl⟩

/-- Claim C4: the free-length-imbalance branch duplicated in
`get_solution` is extensionally identical to the one in `error`, and both
sites compute the same derived mean diameters from the same inputs. -/
theorem claim_C4_duplicated_logic_agrees :
    (∀ Ro Ri L0o L0i : ℚ,
      error_preload Ro Ri L0o L0i = solution_preload Ro Ri L0o L0i) ∧
    (∀ coil_gap OD d_o di : ℚ,
      error_mean_diameters coil_gap OD d_o di
        = solution_mean_diameters coil_gap OD d_o di) :=
  ⟨fun _ _ _ _ => rfl, fun _ _ _ _ => rfl⟩

/-- Claim C5: in both the residual function and the post-processing the
derived geometry is Do = OD - do and Di = Do - do - 2*(radial gap) - di,
for every input. -/
theorem claim_C5_mean_diameters (coil_gap OD d_o di : ℚ) :
    error_mean_diameters coil_gap OD d_o di
      = (OD - d_o, (OD - d_o) - d_o - 2*coil_gap - di) ∧
    solution_mean_diameters coil_gap OD d_o di
      = (OD - d_o, (OD - d_o) - d_o - 2*coil_gap - di) :=
  ⟨rfl, rfl⟩

/-- Claim C6: the residual function is defined for every input vector --
`error_checked`, the Option-monad restructuring whose single
fallible-looking site is the division F2/(Ro + Ri), succeeds on every
configuration, physics bundle and iterate, returning exactly `error`'s
value; numpy float64 division never raises (see `npDiv`). -/
theorem claim_C6_error_total (cfg : TwoCoilSetLength) (hcl : Helicoil)
    (x : Vec7) :
    cfg.error_checked hcl x = some (cfg.error hcl x) :=
  rfl

/-- Claim C3: on a successful solve, the post-processing computes the
carried loads from the converged vector as Fo = Fo1 + Ro*(L1 - L) and
Fi = Fi1 + Ri*(L1 - L), with (Fo1, Fi1, L1) from the free-length
tie-break and Ro, Ri the recomputed axial rates, and stores them in the
outer and inner coil records respectively. -/
theorem claim_C3_success_forces (cfg : TwoCoilSetLength) (hcl : Helicoil)
    (sol : RootResult) (hs : sol.success = true) :
    let d_o := sol.x.v1
    let di := sol.x.v4
    let Do := sol.x.v0 - d_o
    let Di := Do - d_o - 2*cfg.coil_gap - di
    let Ro := hcl.axial_rate cfg.mat.G d_o Do sol.x.v2
    let Ri := hcl.axial_rate cfg.mat.G di Di sol.x.v5
    let pre := solution_preload Ro Ri sol.x.v3 sol.x.v6
    cfg.get_solution hcl sol =
      (true,
       Slot.coil (hcl.coil_data outer_label d_o Do sol.x.v2
         (pre.1 + Ro*(pre.2.2 - cfg.L)) cfg.L (cfg.L - cfg.max_comp)
         cfg.lo_cycle_amp cfg.hi_cycle_amp cfg.mat),
       Slot.coil (hcl.coil_data inner_label di Di sol.x.v5
         (pre.2.1 + Ri*(pre.2.2 - cfg.L)) cfg.L (cfg.L - cfg.max_comp)
         cfg.lo_cycle_amp cfg.hi_cycle_amp cfg.mat)) := by
  obtain ⟨succ, sx, sf, sn, sm⟩ := sol
  cases succ with
  | false => exact absurd hs (by simp)
  | true => rfl

/-- Witness for C3: the demo configuration with a successful solver
result at the demo vector. -/
theorem claim_C3_success_forces_witness :
    solOK.success = true ∧
    (let d_o := solOK.x.v1
     let di := solOK.x.v4
     let Do := solOK.x.v0 - d_o
     let Di := Do - d_o - 2*cfg0.coil_gap - di
     let Ro := hc0.axial_rate cfg0.mat.G d_o Do solOK.x.v2
     let Ri := hc0.axial_rate cfg0.mat.G di Di solOK.x.v5
     let pre := solution_preload Ro Ri solOK.x.v3 solOK.x.v6
     cfg0.get_solution hc0 solOK =
       (true,
        Slot.coil (hc0.coil_data outer_label d_o Do solOK.x.v2
          (pre.1 + Ro*(pre.2.2 - cfg0.L)) cfg0.L (cfg0.L - cfg0.max_comp)
          cfg0.lo_cycle_amp cfg0.hi_cycle_amp cfg0.mat),
        Slot.coil (hc0.coil_data inner_label di Di solOK.x.v5
          (pre.2.1 + Ri*(pre.2.2 - cfg0.L)) cfg0.L (cfg0.L - cfg0.max_comp)
          cfg0.lo_cycle_amp cfg0.hi_cycle_amp cfg0.mat))) :=
  ⟨rfl, claim_C3_success_forces cfg0 hc0 solOK rfl⟩

/-- Claim C7: when the root finder fails, `get_solution` returns a
success=false triple carrying the solver's raw diagnostic state in place
of the first record, with no fatal fault; when it succeeds it returns
success=true with exactly two populated coil records, outer first and
inner second. -/
theorem claim_C7_result_shape (cfg : TwoCoilSetLength) (hcl : Helicoil)
    (sol : RootResult) :
    (sol.success = false →
      cfg.get_solution hcl sol = (false, Slot.diag sol, Slot.nil)) ∧
    (sol.success = true → ∃ oc ic : CoilRecord,
      cfg.get_solution hcl sol = (true, Slot.coil oc, Slot.coil ic) ∧
      oc.label = "Outer Coil" ∧ ic.label = "Inner Coil") := by
  obtain ⟨succ, sx, sf, sn, sm⟩ := sol
  cases succ with
  | false => exact ⟨fun _ => rfl, fun h => absurd h (by simp)⟩
  | true => exact ⟨fun h => absurd h (by simp), fun _ => ⟨_, _, rfl, rfl, rfl⟩⟩

/-- Witness for C7: a concrete failed result and a concrete successful
result on the demo configuration. -/
theorem claim_C7_result_shape_witness :
    cfg0.get_solution hc0 solFail = (false, Slot.diag solFail, Slot.nil) ∧
    ∃ oc ic : CoilRecord,
      cfg0.get_solution hc0 solOK = (true, Slot.coil oc, Slot.coil ic) ∧
      oc.label = "Outer Coil" ∧ ic.label = "Inner Coil" :=
  ⟨(claim_C7_result_shape cfg0 hc0 solFail).1 rfl,
   (claim_C7_result_shape cfg0 hc0 solOK).2 rfl⟩

/-- A configuration with a non-positive (negative) target combined rate:
malformed in the sense of the spec's ConfigurationInvalid taxonomy. -/
def badCfg : TwoCoilSetLength :=
  TwoCoilSetLength.init mat0 (-1) 34760 (3678/10) 8 45 35 25 (7/10) 20 70 x0demo

/-- Counterexample to claim C8 at the concrete malformed configuration
with target rate -1: the constructor stores the non-positive rate
verbatim, and `get_solution` proceeds straight to the root-finder stage --
on a failed solve it returns the ordinary non-convergence triple, and on a
successful solve it builds coil records -- so no configuration error is
raised before the solver and nothing distinguishes the malformed
configuration from solver non-convergence. -/
theorem claim_C8_counterexample :
    badCfg.R = -1 ∧
    badCfg.get_solution hc0 solFail = (false, Slot.diag solFail, Slot.nil) ∧
    (badCfg.get_solution hc0 solOK).1 = true :=
  ⟨rfl, rfl, rfl⟩

/-- Claim C8 amended: the code performs no configuration validation:
`__init__` stores every constructor argument verbatim (including a
non-positive target rate), and `get_solution`'s outcome flag always equals
the external solver's success flag for every configuration, so the only
failure mode it signals is solver non-convergence. -/
theorem claim_C8_no_validation (material : Material)
    (axial_rate design_load design_length radial_coil_gap max_compression
     lo_amp hi_amp end_condition comp_reserve stress_reserve : ℚ)
    (estimated_solution : Vec7) (hcl : Helicoil) (sol : RootResult) :
    (TwoCoilSetLength.init material axial_rate design_load design_length
      radial_coil_gap max_compression lo_amp hi_amp end_condition
      comp_reserve stress_reserve estimated_solution).R = axial_rate ∧
    ((TwoCoilSetLength.init material axial_rate design_load design_length
      radial_coil_gap max_compression lo_amp hi_amp end_condition
      comp_reserve stress_reserve estimated_solution).get_solution hcl
        sol).1 = sol.success := by
  refine ⟨rfl, ?_⟩
  obtain ⟨succ, sx, sf, sn, sm⟩ := sol
  cases succ with
  | false => rfl
  | true => rfl

/-- The algebraic core of C9: if the fourth residual
L1 - (F - Fo1 - Fi1)/(Ro + Ri) - L vanishes and the combined rate is
nonzero, the two carried loads sum to the design load. -/
lemma load_balance_core (Ro Ri Fo1 Fi1 L1 F L : ℚ) (hR : Ro + Ri ≠ 0)
    (h3 : L1 - (F - Fo1 - Fi1)/(Ro + Ri) - L = 0) :
    Fo1 + Ro*(L1 - L) + (Fi1 + Ri*(L1 - L)) = F := by
  have hq : (F - Fo1 - Fi1)/(Ro + Ri) = L1 - L := by linarith
  have key : F - Fo1 - Fi1 = (L1 - L) * (Ro + Ri) := (div_eq_iff hR).mp hq
  linear_combination -key

/-- Claim C9 (implicit): at any successful solver result whose vector
zeroes all seven residuals of `error` (with the combined recomputed rate
nonzero, which exact vanishing of residual 4 forces under the program's
IEEE division), the two carried loads stored by the post-processing sum
to the design load: the nest carries exactly the design load at the
design length. -/
theorem claim_C9_nest_carries_design_load (cfg : TwoCoilSetLength)
    (hcl : Helicoil) (sol : RootResult) (hs : sol.success = true)
    (hz : cfg.error hcl sol.x = Vec7.zero)
    (hR : hcl.axial_rate cfg.mat.G sol.x.v1 (sol.x.v0 - sol.x.v1) sol.x.v2
        + hcl.axial_rate cfg.mat.G sol.x.v4
            ((sol.x.v0 - sol.x.v1) - sol.x.v1 - 2*cfg.coil_gap - sol.x.v4)
            sol.x.v5 ≠ 0) :
    ∃ oc ic : CoilRecord,
      cfg.get_solution hcl sol = (true, Slot.coil oc, Slot.coil ic) ∧
      oc.F + ic.F = cfg.F := by
  obtain ⟨succ, sx, sf, sn, sm⟩ := sol
  cases succ with
  | false => exact absurd hs (by simp)
  | true =>
    refine ⟨_, _, rfl, ?_⟩
    exact load_balance_core _ _ _ _ _ cfg.F cfg.L hR (congrArg Vec7.v3 hz)

/-- A material for the C9 witness: constant stress limit 70. -/
def mat9 : Material :=
  { G := 1, E := 1, solid_stress_limit := fun _ => 70 }

/-- A physics bundle for the C9 witness, chosen so that the witness
configuration's residual vector is exactly zero: zero solid and reserve
lengths, unit axial rate, zero static stress, buckling deflection 5. -/
def hc9 : Helicoil :=
  { solid_length := fun _ _ => 0
    Sa_min_reserve_length := fun _ _ _ => 0
    axial_rate := fun _ _ _ _ => 1
    axial_stress_static := fun _ _ _ => 0
    buckling_deflection := fun _ _ _ _ _ => 5 }

/-- A configuration whose residual vector vanishes exactly at `x9` under
`hc9`: target rate 2 (= the two unit rates), design load -10, design
length 10, max compression 10, zero compression reserve, stress
reserve 70. -/
def cfg9 : TwoCoilSetLength :=
  TwoCoilSetLength.init mat9 2 (-10) 10 1 10 1 1 1 0 70 x0demo

/-- The C9 witness vector: equal free lengths 5, under which both
preloads are zero and the residuals of `cfg9` vanish exactly. -/
def x9 : Vec7 := ⟨1, 1, 1, 5, 1, 1, 5⟩

/-- A successful solver result at `x9`. -/
def sol9 : RootResult :=
  { success := true, x := x9, fvec := Vec7.zero, nfev := 1
    message := "The solution converged." }

/-- Witness for C9: at the concrete exact solution `x9` of `cfg9` the two
stored loads sum to the design load -10 (each coil carries -5). -/
theorem claim_C9_witness :
    sol9.success = true ∧
    cfg9.error hc9 sol9.x = Vec7.zero ∧
    (hc9.axial_rate cfg9.mat.G sol9.x.v1 (sol9.x.v0 - sol9.x.v1) sol9.x.v2
      + hc9.axial_rate cfg9.mat.G sol9.x.v4
          ((sol9.x.v0 - sol9.x.v1) - sol9.x.v1 - 2*cfg9.coil_gap - sol9.x.v4)
          sol9.x.v5 ≠ 0) ∧
    (∃ oc ic : CoilRecord,
      cfg9.get_solution hc9 sol9 = (true, Slot.coil oc, Slot.coil ic) ∧
      oc.F + ic.F = cfg9.F) :=
  ⟨rfl,
   by norm_num [TwoCoilSetLength.error, TwoCoilSetLength.init, cfg9, hc9,
     sol9, x9, mat9, error_mean_diameters, error_preload, Vec7.zero],
   by norm_num [cfg9, hc9, sol9, x9, mat9, TwoCoilSetLength.init],
   claim_C9_nest_carries_design_load cfg9 hc9 sol9 rfl
     (by norm_num [TwoCoilSetLength.error, TwoCoilSetLength.init, cfg9, hc9,
       sol9, x9, mat9, error_mean_diameters, error_preload, Vec7.zero])
     (by norm_num [cfg9, hc9, sol9, x9, mat9, TwoCoilSetLength.init])⟩

/-- Claim C10 (implicit): at every input, both tie-break sites set
L1 = min(L0o, L0i), each preload equals its coil's rate times the
nonnegative distance from that coil's free length to the minimum (so one
of the two preloads is exactly 0), and both preloads are nonnegative
whenever both rates are. -/
theorem claim_C10_preload_invariants (Ro Ri L0o L0i : ℚ) :
    ((error_preload Ro Ri L0o L0i).2.2 = min L0o L0i ∧
     (error_preload Ro Ri L0o L0i).1 = Ro * (L0o - min L0o L0i) ∧
     (error_preload Ro Ri L0o L0i).2.1 = Ri * (L0i - min L0o L0i) ∧
     ((error_preload Ro Ri L0o L0i).1 = 0 ∨
      (error_preload Ro Ri L0o L0i).2.1 = 0) ∧
     (0 ≤ Ro → 0 ≤ Ri →
       0 ≤ (error_preload Ro Ri L0o L0i).1 ∧
       0 ≤ (error_preload Ro Ri L0o L0i).2.1)) ∧
    ((solution_preload Ro Ri L0o L0i).2.2 = min L0o L0i ∧
     (solution_preload Ro Ri L0o L0i).1 = Ro * (L0o - min L0o L0i) ∧
     (solution_preload Ro Ri L0o L0i).2.1 = Ri * (L0i - min L0o L0i) ∧
     ((solution_preload Ro Ri L0o L0i).1 = 0 ∨
      (solution_preload Ro Ri L0o L0i).2.1 = 0) ∧
     (0 ≤ Ro → 0 ≤ Ri →
       0 ≤ (solution_preload Ro Ri L0o L0i).1 ∧
       0 ≤ (solution_preload Ro Ri L0o L0i).2.1)) := by
  have core : (error_preload Ro Ri L0o L0i).2.2 = min L0o L0i ∧
      (error_preload Ro Ri L0o L0i).1 = Ro * (L0o - min L0o L0i) ∧
      (error_preload Ro Ri L0o L0i).2.1 = Ri * (L0i - min L0o L0i) ∧
      ((error_preload Ro Ri L0o L0i).1 = 0 ∨
       (error_preload Ro Ri L0o L0i).2.1 = 0) ∧
      (0 ≤ Ro → 0 ≤ Ri →
        0 ≤ (error_preload Ro Ri L0o L0i).1 ∧
        0 ≤ (error_preload Ro Ri L0o L0i).2.1) := by
    unfold error_preload
    split_ifs with h
    · have hmin : min L0o L0i = L0i := min_eq_right h.le
      refine ⟨by simp [hmin], by simp [hmin], by simp [hmin], Or.inr rfl,
        fun hRo hRi => ⟨mul_nonneg hRo (by linarith), le_refl 0⟩⟩
    · have hle : L0o ≤ L0i := not_lt.mp h
      have hmin : min L0o L0i = L0o := min_eq_left hle
      refine ⟨by simp [hmin], by simp [hmin], by simp [hmin], Or.inl rfl,
        fun hRo hRi => ⟨le_refl 0, mul_nonneg hRi (by linarith)⟩⟩
  exact ⟨core, core⟩

/-- Witness for C10: concrete nonnegative rates 2, 3 with free lengths
7 > 4; both sites' preloads are nonnegative. -/
theorem claim_C10_preload_invariants_witness :
    (0:ℚ) ≤ 2 ∧ (0:ℚ) ≤ 3 ∧
    (0 ≤ (error_preload 2 3 7 4).1 ∧ 0 ≤ (error_preload 2 3 7 4).2.1) ∧
    (0 ≤ (solution_preload 2 3 7 4).1 ∧ 0 ≤ (solution_preload 2 3 7 4).2.1) :=
  ⟨by norm_num, by norm_num,
   (claim_C10_preload_invariants 2 3 7 4).1.2.2.2.2 (by norm_num) (by norm_num),
   (claim_C10_preload_invariants 2 3 7 4).2.2.2.2.2 (by norm_num) (by norm_num)⟩

end SpringDesign
